import Mathlib

/-!
Shallow embedding of the HLS live-stream demo server (src/server/main.go).

Byte payloads are modelled as `List Nat` (one entry per byte; the hash
byte is 35, newline is 10). The Go map from segment name to bytes is
modelled as a function `String → Option (List Nat)`; the nil playlist
slice is the empty list. Each HTTP handler is a pure function from the
store and the request data to the new store and the response observed by
the client. Fallible request-body reading is an `Except` value.
-/

/-- Bytes of a string, one Nat per character code. -/
def strBytes (s : String) : List Nat :=
  s.toList.map Char.toNat

/-- MemoryStore from main.go: the name-keyed segment map plus the playlist
buffer. The mutex is not modelled; handlers are whole atomic steps, which
is exactly what the lock discipline of the code guarantees. -/
structure MemoryStore where
  segments : String → Option (List Nat)
  playlist : List Nat

/-- The global store as initialised in main.go: empty segment map and a
nil (empty) playlist slice. -/
def initialStore : MemoryStore :=
  { segments := fun _ => none, playlist := [] }

/-- An HTTP response as observed by the client: status code, body bytes,
and the Content-Type header if the handler sets one. -/
structure Response where
  status : Nat
  body : List Nat
  contentType : Option String
deriving DecidableEq

/-- The response written by http.Error in Go: the given status code, the
message followed by a newline, and a plain-text content type. -/
def errorResponse (msg : String) (code : Nat) : Response :=
  { status := code
    body := strBytes (msg ++ "\n")
    contentType := some "text/plain; charset=utf-8" }

/-- The landing page served by indexHandler. -/
def indexPage : String :=
  "\n<html>\n  <head>\n    <title>Webcam Live Stream (HLS)</title>\n  </head>\n  <body>\n    <h1>Webcam Live Stream (HLS)</h1>\n    <video width=\"640\" height=\"480\" controls autoplay>\n      <source src=\"/index.m3u8\" type=\"application/x-mpegURL\">\n    </video>\n  </body>\n</html>\n"

/-- indexHandler: always answers 200 with the landing page. The request
method argument is present (handlers receive the full request in Go) but
never inspected. -/
def indexHandler (st : MemoryStore) (_method : String) : MemoryStore × Response :=
  (st, { status := 200, body := strBytes indexPage, contentType := some "text/html; charset=utf-8" })

/-- playlistHandler: 503 while the stored playlist has length zero,
otherwise 200 with the stored playlist bytes. The request method argument
is never inspected. -/
def playlistHandler (st : MemoryStore) (_method : String) : MemoryStore × Response :=
  if st.playlist.length = 0 then
    (st, errorResponse "Playlist not yet available" 503)
  else
    (st, { status := 200, body := st.playlist, contentType := some "application/vnd.apple.mpegurl" })

/-- segmentHandler: the segment name is the request path without its
leading slash. PUT stores the fully read body under that name (500 on a
body-read failure, store untouched); GET serves the stored bytes with the
transport-stream content type, or 404; every other method gets 405. -/
def segmentHandler (st : MemoryStore) (method : String) (path : String)
    (body : Except String (List Nat)) : MemoryStore × Response :=
  let segmentName := path.drop 1
  if method = "PUT" then
    match body with
    | Except.error _ => (st, errorResponse "Error reading segment data" 500)
    | Except.ok b =>
        ({ st with segments := fun n => if n = segmentName then some b else st.segments n },
         { status := 201, body := strBytes "OK", contentType := none })
  else if method = "GET" then
    match st.segments segmentName with
    | none => (st, errorResponse "Segment not found" 404)
    | some segmentData =>
        (st, { status := 200, body := segmentData, contentType := some "video/mp2t" })
  else
    (st, errorResponse "Method not allowed" 405)

/-- getSegment: the read half of the segment map (spec name for the store
lookup performed by the GET branch of segmentHandler). -/
def getSegment (st : MemoryStore) (n : String) : Option (List Nat) :=
  st.segments n

/-- getManifest: the read half of the playlist field with the exact
availability test of playlistHandler (length zero means unavailable,
returned here as none). -/
def getManifest (st : MemoryStore) : Option (List Nat) :=
  if st.playlist.length = 0 then none else some st.playlist

/-- savePlaylist: the callback attached to the encoder output streams.
When the first byte of the chunk is the hash byte 35 the chunk plus a
newline is appended to the stored playlist; otherwise the chunk is passed
to the logger (returned here as the second component). -/
def savePlaylist (st : MemoryStore) (p : List Nat) : MemoryStore × Option (List Nat) :=
  match p with
  | [] => (st, some p)
  | c :: _ =>
      if c = 35 then
        ({ st with playlist := st.playlist ++ p ++ [10] }, none)
      else
        (st, some p)

/-- pipeWriter from main.go: an output sink holding an optional callback. -/
structure pipeWriter where
  onWrite : Option (MemoryStore → List Nat → MemoryStore × Option (List Nat))

/-- The Write method of pipeWriter: runs the callback when one is set and
reports the pair (length of data, nil error) back to the producer. -/
def pipeWriter.Write (pw : pipeWriter) (st : MemoryStore) (data : List Nat) :
    (MemoryStore × Option (List Nat)) × (Nat × Option String) :=
  let run :=
    match pw.onWrite with
    | some f => f st data
    | none => (st, none)
  (run, (data.length, none))

/-- The sink wired to the encoder process standard output in main. -/
def stdoutWriter : pipeWriter :=
  { onWrite := some savePlaylist }

/-- The sink wired to the encoder process standard error in main (the
pipeWriter half of the MultiWriter). -/
def stderrWriter : pipeWriter :=
  { onWrite := some savePlaylist }

/-- The request mux registered in main, with the matching rule of Go
ServeMux: a pattern that does not end in a slash matches only that exact
path. The registered patterns are /index.m3u8, /segment_ and the root
pattern /, so /index.m3u8 and /segment_ are exact matches and every other
path — including /segment_001.ts — falls through to the root pattern and
indexHandler. -/
def route (st : MemoryStore) (method : String) (path : String)
    (body : Except String (List Nat)) : MemoryStore × Response :=
  if path = "/index.m3u8" then playlistHandler st method
  else if path = "/segment_" then segmentHandler st method path body
  else indexHandler st method

/-- A concrete store holding one segment named segment_c.ts, used as a
sample input. -/
def storeC : MemoryStore :=
  (segmentHandler initialStore "PUT" "/segment_c.ts" (Except.ok [3])).1

/-- A concrete store holding bytes under the name segment_001.ts, used as
a sample input. -/
def storeD : MemoryStore :=
  (segmentHandler initialStore "PUT" "/segment_001.ts" (Except.ok [9])).1

/-- Claim C10: for every byte slice, the Write method of pipeWriter reports
the pair (length of data, nil error), whatever the callback does and
whether or not one is set. -/
theorem pipeWriter_Write_always_succeeds (pw : pipeWriter) (st : MemoryStore)
    (data : List Nat) :
    (pipeWriter.Write pw st data).2 = (data.length, none) := rfl

/-- Claim C4: a PUT of body b through the segment handler followed
immediately by a GET of the same path answers 200 with exactly b and the
media-segment content type. -/
theorem putSegment_then_getSegment_roundtrip (st : MemoryStore) (path : String)
    (b : List Nat) (b2 : Except String (List Nat)) :
    (segmentHandler ((segmentHandler st "PUT" path (Except.ok b)).1) "GET" path b2).2
      = { status := 200, body := b, contentType := some "video/mp2t" } := by
  simp [segmentHandler]

/-- Claim C8: the code evaluated at the failing input. The mux pattern
/segment_ has no trailing slash, so a PUT of the readable body [1, 2] to
/segment_001.ts never reaches segmentHandler: the root pattern serves it
with 200 and nothing is stored under segment_001.ts. Only the exact path
/segment_ reaches the PUT branch, where the body is stored with 201 and a
body-read failure is answered 500. -/
theorem put_segment_id_falls_through :
    ((route initialStore "PUT" "/segment_001.ts" (Except.ok [1, 2])).2.status = 200
      ∧ ((route initialStore "PUT" "/segment_001.ts" (Except.ok [1, 2])).1).segments
          "segment_001.ts" = none)
    ∧ ((route initialStore "PUT" "/segment_" (Except.ok [1, 2])).2.status = 201
      ∧ ((route initialStore "PUT" "/segment_" (Except.ok [1, 2])).1).segments
          "segment_" = some [1, 2]
      ∧ (route initialStore "PUT" "/segment_" (Except.error "e")).2.status = 500) := by
  decide

/-- Claim C9 counterexample: a PUT with an empty body to /segment_001.ts
is answered 200 by the landing-page handler, not 201, and nothing is
stored under segment_001.ts. -/
theorem empty_put_segment_id_not_created :
    (route initialStore "PUT" "/segment_001.ts" (Except.ok [])).2.status = 200
    ∧ (route initialStore "PUT" "/segment_001.ts" (Except.ok [])).2.status ≠ 201
    ∧ ((route initialStore "PUT" "/segment_001.ts" (Except.ok [])).1).segments
        "segment_001.ts" = none := by
  decide

/-- Claim C9 (amended): at the exact path /segment_ — the only segment
path the mux routes to segmentHandler — a PUT with an empty body answers
201 and stores the empty blob, and a following GET answers 200 with a
zero-length body rather than 404, so segment existence is map membership;
by contrast the playlist handler answers 503 whenever the stored playlist
bytes are empty. -/
theorem empty_segment_via_exact_path (st st2 : MemoryStore) (m : String)
    (b2 : Except String (List Nat)) :
    (route st "PUT" "/segment_" (Except.ok [])).2.status = 201
    ∧ ((route st "PUT" "/segment_" (Except.ok [])).1).segments "segment_" = some []
    ∧ (route ((route st "PUT" "/segment_" (Except.ok [])).1) "GET" "/segment_" b2).2.status = 200
    ∧ (route ((route st "PUT" "/segment_" (Except.ok [])).1) "GET" "/segment_" b2).2.body = []
    ∧ (playlistHandler { st2 with playlist := [] } m).2
        = errorResponse "Playlist not yet available" 503 := by
  have hd : ("/segment_" : String).drop 1 = "segment_" := by decide
  refine ⟨?_, ?_, ?_, ?_, ?_⟩ <;> simp [route, segmentHandler, playlistHandler, hd]

/-- Claim C1: evaluated at the failing input, writing manifest bytes for
hash-A and then hash-B leaves the stored playlist as the concatenation of
both lines with newlines, not as the second manifest alone — savePlaylist
appends to the playlist buffer instead of replacing it. -/
theorem savePlaylist_accumulates_manifests :
    ((savePlaylist (savePlaylist initialStore [35, 65]).1 [35, 66]).1).playlist
      = [35, 65, 10, 35, 66, 10]
    ∧ ((savePlaylist (savePlaylist initialStore [35, 65]).1 [35, 66]).1).playlist
      ≠ [35, 66] := by
  decide

/-- Claim C3: both inbound channels are wired to the same untagged
callback, and that callback classifies a chunk by inspecting its first
byte: a chunk starting with the hash byte is appended to the playlist
(no log output), any other chunk is sent to the logger — so the
classification depends on the payload content, not on a channel tag. -/
theorem inbound_classification_depends_on_payload :
    stdoutWriter.onWrite = stderrWriter.onWrite
    ∧ (savePlaylist initialStore (strBytes "#EXTM3U")).2 = none
    ∧ (savePlaylist initialStore (strBytes "frame=  10 fps= 30")).2
        = some (strBytes "frame=  10 fps= 30") :=
  ⟨rfl, by decide, by decide⟩

/-- Claim C5 counterexample: on the fresh store a POST to /index.m3u8 is
answered 503, a POST to / is answered 200, and a POST to /segment_001.ts
is answered 200 by the landing-page handler to which it falls through —
in no case 405. -/
theorem post_recognized_paths_not_405 :
    (route initialStore "POST" "/index.m3u8" (Except.ok [])).2.status = 503
    ∧ (route initialStore "POST" "/" (Except.ok [])).2.status = 200
    ∧ (route initialStore "POST" "/segment_001.ts" (Except.ok [])).2.status = 200
    ∧ (503 ≠ 405 ∧ 200 ≠ 405) := by
  decide

/-- Claim C5 (amended): the server answers 405 exactly at the one path the
mux routes to segmentHandler — the exact path /segment_ — for methods
other than PUT and GET, leaving the store unchanged. Every other
recognized path ignores the method: /segment_001.ts falls through to the
landing-page handler, answered 200 with the store unchanged, and the
handlers for / and /index.m3u8 answer every method identically. -/
theorem only_exact_segment_path_405 (st : MemoryStore) (method : String)
    (body : Except String (List Nat)) (h1 : method ≠ "PUT") (h2 : method ≠ "GET") :
    ((route st method "/segment_" body).1 = st
      ∧ (route st method "/segment_" body).2 = errorResponse "Method not allowed" 405)
    ∧ ((route st method "/segment_001.ts" body).1 = st
      ∧ (route st method "/segment_001.ts" body).2.status = 200)
    ∧ (∀ m1 m2 : String, playlistHandler st m1 = playlistHandler st m2
        ∧ indexHandler st m1 = indexHandler st m2) := by
  refine ⟨⟨?_, ?_⟩, ⟨?_, ?_⟩, fun m1 m2 => ⟨rfl, rfl⟩⟩ <;>
    simp [route, segmentHandler, indexHandler, h1, h2]

/-- Witness for the amended C5 theorem: POST on the fresh store. -/
theorem only_exact_segment_path_405_witness :
    (("POST" ≠ "PUT") ∧ ("POST" ≠ "GET"))
    ∧ (((route initialStore "POST" "/segment_" (Except.ok [7])).1 = initialStore
        ∧ (route initialStore "POST" "/segment_" (Except.ok [7])).2
            = errorResponse "Method not allowed" 405)
      ∧ ((route initialStore "POST" "/segment_001.ts" (Except.ok [7])).1 = initialStore
        ∧ (route initialStore "POST" "/segment_001.ts" (Except.ok [7])).2.status = 200)
      ∧ (∀ m1 m2 : String, playlistHandler initialStore m1 = playlistHandler initialStore m2
          ∧ indexHandler initialStore m1 = indexHandler initialStore m2)) :=
  ⟨⟨by decide, by decide⟩,
    only_exact_segment_path_405 initialStore "POST" (Except.ok [7])
      (by decide) (by decide)⟩

/-- Claim C6: on the fresh store getManifest is unavailable and the
playlist handler answers 503 for any method; after a completed manifest
write (an encoder chunk whose first byte is the hash byte 35) the playlist
handler answers 200 with the stored manifest bytes, which getManifest now
returns. -/
theorem manifest_503_before_200_after (m1 m2 : String) (st : MemoryStore)
    (rest : List Nat) :
    getManifest initialStore = none
    ∧ (playlistHandler initialStore m1).2 = errorResponse "Playlist not yet available" 503
    ∧ ((playlistHandler ((savePlaylist st (35 :: rest)).1) m2).2.status = 200
      ∧ (playlistHandler ((savePlaylist st (35 :: rest)).1) m2).2.body
          = ((savePlaylist st (35 :: rest)).1).playlist
      ∧ getManifest ((savePlaylist st (35 :: rest)).1)
          = some ((savePlaylist st (35 :: rest)).1).playlist) := by
  refine ⟨rfl, rfl, ?_, ?_, ?_⟩ <;>
    simp [playlistHandler, savePlaylist, getManifest]

/-- Claim C2: the code has no eviction. Once a segment is present in the
store, no operation of the program — any HTTP request through the mux,
with any method, path and body, or any encoder-output chunk — ever
removes it; every stored segment stays retrievable forever, so nothing
implements the evictStale contract. -/
theorem segments_never_evicted (st : MemoryStore) (n : String)
    (h : (st.segments n).isSome = true) :
    (∀ method path body, (((route st method path body).1).segments n).isSome = true)
    ∧ (∀ p, ((((savePlaylist st p).1).segments n).isSome = true)) := by
  constructor
  · intro method path body
    by_cases hidx : path = "/index.m3u8"
    · by_cases hlen : st.playlist.length = 0 <;>
        simp [route, playlistHandler, hidx, hlen, h]
    · by_cases hseg : path = "/segment_"
      · subst hseg
        by_cases hput : method = "PUT"
        · cases body with
          | error e => simp [route, segmentHandler, hidx, hput, h]
          | ok b =>
              by_cases hn : n = ("/segment_" : String).drop 1 <;>
                simp [route, segmentHandler, hidx, hput, hn, h]
        · by_cases hget : method = "GET"
          · cases hm : st.segments (("/segment_" : String).drop 1) <;>
              simp [route, segmentHandler, hidx, hput, hget, hm, h]
          · simp [route, segmentHandler, hidx, hput, hget, h]
      · simp [route, indexHandler, hidx, hseg, h]
  · intro p
    cases p with
    | nil => simpa [savePlaylist] using h
    | cons c rest =>
        by_cases hc : c = 35 <;> simp [savePlaylist, hc, h]

/-- Witness for the C2 theorem: a store holding one segment named
segment_c.ts, which every operation leaves retrievable. -/
theorem segments_never_evicted_witness :
    ((storeC.segments "segment_c.ts").isSome = true)
    ∧ ((∀ method path body,
          (((route storeC method path body).1).segments "segment_c.ts").isSome = true)
      ∧ (∀ p, ((((savePlaylist storeC p).1).segments "segment_c.ts").isSome = true))) :=
  ⟨by decide, segments_never_evicted storeC "segment_c.ts" (by decide)⟩

/-- Claim C7: the code evaluated at the failing input. The mux pattern
/segment_ has no trailing slash, so GET /segment_001.ts falls through to
the root pattern: with the name never written the server answers 200 with
the HTML landing page instead of 404, and even with bytes stored under
segment_001.ts the same GET still answers the landing page, never the
stored bytes. -/
theorem get_missing_segment_not_404 :
    ((route initialStore "GET" "/segment_001.ts" (Except.ok [])).2
        = { status := 200, body := strBytes indexPage,
            contentType := some "text/html; charset=utf-8" }
      ∧ (route initialStore "GET" "/segment_001.ts" (Except.ok [])).2.status ≠ 404)
    ∧ (storeD.segments "segment_001.ts" = some [9]
      ∧ (route storeD "GET" "/segment_001.ts" (Except.ok [])).2.body = strBytes indexPage) := by
  refine ⟨⟨rfl, by decide⟩, by decide, rfl⟩
